import Mathlib

/-!
Verification development for the GladdenAction decision-and-dispatch pipeline
(backend/core/tools/registry.py, backend/core/tools/base.py,
backend/execution/executor.py, backend/agent/agent.py).

The Python code is shallowly embedded: dictionaries become insertion-ordered
association lists (matching CPython dict semantics, where overwriting an
existing key keeps its position and inserting a new key appends), JSON values
become an inductive `Json` type, exceptions become `Except`, and real time
(`datetime.now`) is abstracted as an opaque timestamp string parameter.
-/

namespace GladdenAction

/-- JSON values as produced by `json.loads`. Numbers are modelled as integers;
float literals are outside the modelled subset (no claim involves them) and
the modelled parser rejects them. JSON `null` and Python `None` coincide. -/
inductive Json where
  | null
  | bool (b : Bool)
  | num (n : Int)
  | str (s : String)
  | arr (elts : List Json)
  | obj (fields : List (String × Json))

/-- A Python dict with string keys, in insertion order. -/
abbrev Dict := List (String × Json)

/-- First value bound to `k`, like `d.get(k)` on a Python dict
(association lists built with `dictInsert` have unique keys). -/
def assocGet {α : Type} (m : List (String × α)) (k : String) : Option α :=
  match m with
  | [] => none
  | (k0, v) :: rest => if k0 = k then some v else assocGet rest k

/-- CPython dict assignment `m[k] = v`: an existing key keeps its position and
gets the new value; a new key is appended. -/
def dictInsert {α : Type} (m : List (String × α)) (k : String) (v : α) :
    List (String × α) :=
  if (assocGet m k).isSome then
    m.map (fun p => if p.1 = k then (k, v) else p)
  else
    m ++ [(k, v)]

/-- Key membership test, like `k in d` on a Python dict. -/
def dictHasKey {α : Type} (m : List (String × α)) (k : String) : Bool :=
  (assocGet m k).isSome

/-- Python `str.isspace` characters in the ASCII range (all inputs in the
claims are ASCII). Used by `str.strip()`. -/
def isPySpace (c : Char) : Bool :=
  c == ' ' || c == '\t' || c == '\n' || c == '\r' || c == '\x0b' || c == '\x0c'

/-- Python `str.strip()` on a character list. -/
def pyStrip (cs : List Char) : List Char :=
  ((cs.dropWhile isPySpace).reverse.dropWhile isPySpace).reverse

/-- If `p` is a prefix of `cs`, return the remainder. -/
def dropPrefixQ (p : List Char) (cs : List Char) : Option (List Char) :=
  match p, cs with
  | [], rest => some rest
  | _ :: _, [] => none
  | a :: ps, c :: rest => if a = c then dropPrefixQ ps rest else none

/-! ### `_extract_json` (agent/agent.py)

Tier (a) is `re.search` with pattern  triple-backtick, optional `json` tag,
whitespace, a lazily matched brace-delimited group, whitespace, closing
triple-backtick, under `re.DOTALL`.  Tier (b) is `re.search` of an opening
brace, a greedy `.*`, and a closing brace under `re.DOTALL`.  Both are
deterministic for these patterns: the optional tag and the whitespace runs
cannot trade characters with the adjacent literals, so leftmost search plus
lazy (shortest) or greedy (longest) body length fully determines the match. -/

/-- Lazy body of the fenced pattern: the shortest prefix ending in a closing
brace that is followed (after whitespace) by a closing triple-backtick.
Returns the body including its final closing brace. -/
def fencedBodyEnd : List Char → Option (List Char)
  | [] => none
  | '}' :: rest =>
    if (dropPrefixQ ['`', '`', '`'] (rest.dropWhile isPySpace)).isSome then
      some ['}']
    else
      match fencedBodyEnd rest with
      | some tail => some ('}' :: tail)
      | none => none
  | c :: rest =>
    match fencedBodyEnd rest with
    | some tail => some (c :: tail)
    | none => none

/-- Try the fenced-block pattern anchored at the start of `cs`; on success
return the captured group (the brace-delimited body, braces included). -/
def tryFencedAt (cs : List Char) : Option (List Char) :=
  match dropPrefixQ ['`', '`', '`'] cs with
  | none => none
  | some rest1 =>
    let rest2 := match dropPrefixQ ['j', 's', 'o', 'n'] rest1 with
      | some r => r
      | none => rest1
    let rest3 := rest2.dropWhile isPySpace
    match rest3 with
    | '{' :: body =>
      match fencedBodyEnd body with
      | some b => some ('{' :: b)
      | none => none
    | _ => none

/-- Leftmost match of the fenced-block pattern (tier (a)). -/
def extractFenced : List Char → Option (List Char)
  | [] => none
  | c :: rest =>
    match tryFencedAt (c :: rest) with
    | some g => some g
    | none => extractFenced rest

/-- Prefix of `cs` ending at the last closing brace in `cs`, if any. -/
def takeUpToLastClose : List Char → Option (List Char)
  | [] => none
  | c :: rest =>
    match takeUpToLastClose rest with
    | some tail => some (c :: tail)
    | none => if c = '}' then some ['}'] else none

/-- Tier (b): from the first opening brace to the last closing brace after it
(greedy `.*` under DOTALL). -/
def extractBrace (cs : List Char) : Option (List Char) :=
  match cs.dropWhile (fun c => !(c = '{')) with
  | '{' :: rest =>
    match takeUpToLastClose rest with
    | some tail => some ('{' :: tail)
    | none => none
  | _ => none

/-- `_extract_json` from agent/agent.py: fenced block first, then the first
top-level brace span, then the stripped raw text. -/
def extract_json (text : String) : String :=
  match extractFenced text.data with
  | some g => ⟨g⟩
  | none =>
    match extractBrace text.data with
    | some g => ⟨g⟩
    | none => ⟨pyStrip text.data⟩

/-! ### `json.loads` (Python standard library), modelled for the subset the
pipeline exercises: null, booleans, integers, strings without `\u` escapes,
arrays and objects.  Inputs outside the subset (float literals, `\u` escapes,
`NaN`/`Infinity`) are rejected by the model; no claim involves them.
Duplicate object keys follow CPython dict semantics (last value wins, first
position kept) via `dictInsert`. -/

/-- JSON whitespace (`json` skips exactly space, tab, newline, return). -/
def isJsonWs (c : Char) : Bool :=
  c == ' ' || c == '\t' || c == '\n' || c == '\r'

def skipWs (cs : List Char) : List Char := cs.dropWhile isJsonWs

/-- Body of a JSON string after the opening quote: returns the decoded
characters and the remainder after the closing quote. -/
def parseStringBody : List Char → Except String (List Char × List Char)
  | [] => .error "Unterminated string"
  | '"' :: rest => .ok ([], rest)
  | '\\' :: rest =>
    match rest with
    | '"' :: r =>
      match parseStringBody r with
      | .ok (cs, rem) => .ok ('"' :: cs, rem)
      | .error e => .error e
    | '\\' :: r =>
      match parseStringBody r with
      | .ok (cs, rem) => .ok ('\\' :: cs, rem)
      | .error e => .error e
    | '/' :: r =>
      match parseStringBody r with
      | .ok (cs, rem) => .ok ('/' :: cs, rem)
      | .error e => .error e
    | 'b' :: r =>
      match parseStringBody r with
      | .ok (cs, rem) => .ok ('\x08' :: cs, rem)
      | .error e => .error e
    | 'f' :: r =>
      match parseStringBody r with
      | .ok (cs, rem) => .ok ('\x0c' :: cs, rem)
      | .error e => .error e
    | 'n' :: r =>
      match parseStringBody r with
      | .ok (cs, rem) => .ok ('\n' :: cs, rem)
      | .error e => .error e
    | 'r' :: r =>
      match parseStringBody r with
      | .ok (cs, rem) => .ok ('\r' :: cs, rem)
      | .error e => .error e
    | 't' :: r =>
      match parseStringBody r with
      | .ok (cs, rem) => .ok ('\t' :: cs, rem)
      | .error e => .error e
    | 'u' :: _ => .error "Unicode escapes are outside the modelled subset"
    | _ => .error "Invalid escape"
  | c :: rest =>
    if c.toNat < 32 then .error "Invalid control character"
    else
      match parseStringBody rest with
      | .ok (cs, rem) => .ok (c :: cs, rem)
      | .error e => .error e

def digitsToNat (ds : List Char) : Nat :=
  ds.foldl (fun a c => a * 10 + (c.toNat - 48)) 0

/-- JSON number, integer subset: optional minus, then `0` or a nonzero digit
followed by digits.  A following `.`, `e` or `E` (a float literal) is outside
the modelled subset and rejected. -/
def parseNumber (cs : List Char) : Except String (Json × List Char) :=
  let (neg, cs1) := match cs with
    | '-' :: r => (true, r)
    | _ => (false, cs)
  match cs1 with
  | '0' :: r =>
    match r with
    | '.' :: _ => .error "Float literals are outside the modelled subset"
    | 'e' :: _ => .error "Float literals are outside the modelled subset"
    | 'E' :: _ => .error "Float literals are outside the modelled subset"
    | _ => .ok (.num 0, r)
  | c :: _ =>
    if c.isDigit then
      let ds := cs1.takeWhile Char.isDigit
      let r := cs1.dropWhile Char.isDigit
      match r with
      | '.' :: _ => .error "Float literals are outside the modelled subset"
      | 'e' :: _ => .error "Float literals are outside the modelled subset"
      | 'E' :: _ => .error "Float literals are outside the modelled subset"
      | _ =>
        let n : Int := Int.ofNat (digitsToNat ds)
        .ok (.num (if neg then -n else n), r)
    else .error "Expecting value"
  | [] => .error "Expecting value"

mutual

def parseValue : Nat → List Char → Except String (Json × List Char)
  | 0, _ => .error "Fuel exhausted"
  | fuel + 1, cs =>
    match skipWs cs with
    | [] => .error "Expecting value"
    | 'n' :: 'u' :: 'l' :: 'l' :: r => .ok (.null, r)
    | 't' :: 'r' :: 'u' :: 'e' :: r => .ok (.bool true, r)
    | 'f' :: 'a' :: 'l' :: 's' :: 'e' :: r => .ok (.bool false, r)
    | '"' :: r =>
      match parseStringBody r with
      | .ok (cs0, rem) => .ok (.str ⟨cs0⟩, rem)
      | .error e => .error e
    | '{' :: r =>
      match skipWs r with
      | '}' :: r2 => .ok (.obj [], r2)
      | r2 => parsePairs fuel r2 []
    | '[' :: r =>
      match skipWs r with
      | ']' :: r2 => .ok (.arr [], r2)
      | r2 => parseElems fuel r2 []
    | cs1 => parseNumber cs1

def parsePairs : Nat → List Char → Dict → Except String (Json × List Char)
  | 0, _, _ => .error "Fuel exhausted"
  | fuel + 1, cs, acc =>
    match skipWs cs with
    | '"' :: r =>
      match parseStringBody r with
      | .error e => .error e
      | .ok (kcs, r1) =>
        match skipWs r1 with
        | ':' :: r2 =>
          match parseValue fuel r2 with
          | .error e => .error e
          | .ok (v, r3) =>
            let acc1 := dictInsert acc (⟨kcs⟩ : String) v
            match skipWs r3 with
            | ',' :: r4 => parsePairs fuel r4 acc1
            | '}' :: r4 => .ok (.obj acc1, r4)
            | _ => .error "Expecting comma or closing brace"
        | _ => .error "Expecting colon"
    | _ => .error "Expecting property name enclosed in double quotes"

def parseElems : Nat → List Char → List Json → Except String (Json × List Char)
  | 0, _, _ => .error "Fuel exhausted"
  | fuel + 1, cs, acc =>
    match parseValue fuel cs with
    | .error e => .error e
    | .ok (v, r) =>
      match skipWs r with
      | ',' :: r2 => parseElems fuel r2 (acc ++ [v])
      | ']' :: r2 => .ok (.arr (acc ++ [v]), r2)
      | _ => .error "Expecting comma or closing bracket"

end

/-- Model of `json.loads`: parse one value and require only whitespace after
it (otherwise Python reports extra data). -/
def jsonLoads (s : String) : Except String Json :=
  match parseValue (s.length + 1) s.data with
  | .error e => .error e
  | .ok (v, rest) =>
    if (skipWs rest).isEmpty then .ok v else .error "Extra data"

/-! ### Data model (core/tools/base.py) -/

/-- A raised Python exception, reduced to its message (`str(exc)`). -/
structure PyExc where
  msg : String

/-- `traceback.format_exc()` for the exception being handled: always a
non-empty string starting with the traceback header.  Frame detail is
interpreter state and is abstracted away; the header and the message are
kept, which is what the non-emptiness contract rests on. -/
def format_exc (e : PyExc) : String :=
  "Traceback (most recent call last):\n" ++ e.msg ++ "\n"

/-- `ToolResult` from core/tools/base.py: `output` defaults to `None`,
`error` to `None`, `metadata` to an empty dict. -/
structure ToolResult where
  success : Bool
  output : Json := Json.null
  error : Option String := none
  metadata : Dict := []

/-- A tool as the registry and executor see it: the three declared class
attributes plus `execute`, which may raise (`Except.error`).  `input_schema`
is kept as a JSON-style value and read through `.get` like the code does.
The code's `validate_inputs` is the `BaseTool` implementation below; no tool
in the repository overrides it. -/
structure BaseTool where
  name : String
  description : String
  input_schema : Json
  execute : Dict → Except PyExc ToolResult

/-- `self.input_schema.get("properties", {})`, read as a dict. -/
def schemaProperties (s : Json) : Dict :=
  match s with
  | .obj fields =>
    match assocGet fields "properties" with
    | some (.obj ps) => ps
    | _ => []
  | _ => []

/-- `self.input_schema.get("required", [])`, read as a list of key names
(`key in required` is false for non-string entries, so they are dropped). -/
def schemaRequired (s : Json) : List String :=
  match s with
  | .obj fields =>
    match assocGet fields "required" with
    | some (.arr vs) => vs.filterMap (fun v =>
        match v with
        | .str k => some k
        | _ => none)
    | _ => []
  | _ => []

/-- The schema shapes on which the Python attribute accesses in
`validate_inputs` cannot themselves raise: the schema is a dict whose
`properties` entry (if any) is a dict and whose `required` entry (if any)
is a list.  Every theorem about the validation path assumes this. -/
def wfSchema (s : Json) : Bool :=
  match s with
  | .obj fields =>
    (match assocGet fields "properties" with
     | none => true
     | some (.obj _) => true
     | some _ => false)
    &&
    (match assocGet fields "required" with
     | none => true
     | some (.arr _) => true
     | some _ => false)
  | _ => false

/-- `BaseTool.validate_inputs`: required keys are the property names that
also appear in `required`; the result is those of them missing from the
provided kwargs. -/
def BaseTool.validate_inputs (t : BaseTool) (kwargs : Dict) : List String :=
  let required := (schemaProperties t.input_schema).filterMap
    (fun p => if (schemaRequired t.input_schema).contains p.1 then some p.1 else none)
  required.filter (fun f => !(dictHasKey kwargs f))

/-- `BaseTool.get_metadata`. -/
def BaseTool.get_metadata (t : BaseTool) : Json :=
  .obj [("name", .str t.name), ("description", .str t.description),
        ("input_schema", t.input_schema)]

/-! ### ToolRegistry (core/tools/registry.py)

The registry state is the insertion-ordered `_tools` dict.  Mutating methods
return the raised-exception-or-unit outcome together with the post-state, so
that a failed call's effect on the state is visible. -/

abbrev Registry := List (String × BaseTool)

/-- Python `repr` of a list of strings, as interpolated into messages. -/
def pyListRepr (names : List String) : String :=
  "[" ++ String.intercalate ", " (names.map (fun s => "\x27" ++ s ++ "\x27")) ++ "]"

/-- `ToolRegistry.list_names`: `sorted(self._tools.keys())`. Python's `sorted`
is lexicographic on code points, modelled by insertion sort under `≤`. -/
def ToolRegistry.list_names (reg : Registry) : List String :=
  List.insertionSort (· ≤ ·) (reg.map Prod.fst)

/-- `ToolRegistry.list_metadata`: one descriptor per tool, iterating
`self._tools.values()` — i.e. insertion order, not sorted order. -/
def ToolRegistry.list_metadata (reg : Registry) : List Json :=
  reg.map (fun p => p.2.get_metadata)

/-- `ToolRegistry.register` (the `!r` class name in the empty-name message is
not representable and elided; no claim inspects that message). -/
def ToolRegistry.register (reg : Registry) (t : BaseTool) :
    Except PyExc Unit × Registry :=
  if t.name = "" then
    (.error ⟨"Tool has no `name` defined."⟩, reg)
  else if dictHasKey reg t.name then
    (.error ⟨"A tool named \x27" ++ t.name ++
      "\x27 is already registered. Use `force_register` if you intend to overwrite it."⟩,
     reg)
  else
    (.ok (), dictInsert reg t.name t)

/-- `ToolRegistry.force_register`: same emptiness check, replaces silently. -/
def ToolRegistry.force_register (reg : Registry) (t : BaseTool) :
    Except PyExc Unit × Registry :=
  if t.name = "" then
    (.error ⟨"Tool has no `name` defined."⟩, reg)
  else
    (.ok (), dictInsert reg t.name t)

/-- `ToolRegistry.unregister`. -/
def ToolRegistry.unregister (reg : Registry) (name : String) :
    Except PyExc Unit × Registry :=
  if dictHasKey reg name then
    (.ok (), reg.filter (fun p => !(p.1 = name)))
  else
    (.error ⟨"No tool named \x27" ++ name ++ "\x27 is registered."⟩, reg)

/-- `ToolRegistry.get`. -/
def ToolRegistry.get (reg : Registry) (name : String) : Except PyExc BaseTool :=
  match assocGet reg name with
  | some t => .ok t
  | none =>
    .error ⟨"Tool \x27" ++ name ++ "\x27 not found. Available tools: " ++
      pyListRepr (ToolRegistry.list_names reg)⟩

/-- `ToolRegistry.get_or_none`, keyed by the value the caller passed: the
string-keyed dict only ever matches a string lookup.  (An unhashable key —
a dict or list — would raise in Python; the one call site that can receive
such a value guards for it, see `Agent.dispatch`.) -/
def ToolRegistry.get_or_none (reg : Registry) (v : Json) : Option BaseTool :=
  match v with
  | .str s => assocGet reg s
  | _ => none

/-! ### Rendering of values interpolated into f-strings

Only log/event message text depends on these; no claim inspects a message
containing a container value.  String escaping inside `repr` is simplified
to plain single quotes. -/

/-- Python `repr` of a JSON-derived value. -/
def pyRepr : Json → String
  | .null => "None"
  | .bool true => "True"
  | .bool false => "False"
  | .num n => toString n
  | .str s => "\x27" ++ s ++ "\x27"
  | .arr xs => "[" ++ String.intercalate ", " (xs.attach.map (fun x => pyRepr x.1)) ++ "]"
  | .obj fs => "\x7b" ++
      String.intercalate ", "
        (fs.attach.map (fun f => "\x27" ++ f.1.1 ++ "\x27: " ++ pyRepr f.1.2)) ++
      "\x7d"
decreasing_by
  · have := List.sizeOf_lt_of_mem x.2
    simp at this ⊢
    omega
  · have h1 := List.sizeOf_lt_of_mem f.2
    obtain ⟨⟨k, v⟩, hf⟩ := f
    simp at h1 ⊢
    omega

/-- Python `str` of a JSON-derived value (`str` of a `str` is itself;
containers fall back to `repr`, as in CPython). -/
def pyStr : Json → String
  | .str s => s
  | v => pyRepr v

/-- `str` of the `error` field (`str(None)` is `"None"`). -/
def pyOptStr : Option String → String
  | some s => s
  | none => "None"

/-! ### ToolExecutor (execution/executor.py) -/

/-- The fixed-shape event record built by `_make_event`; `timestamp` comes
from the abstracted clock parameter `now`. -/
structure Event where
  type : String
  stage : String
  message : String
  tool : String
  timestamp : String

def _make_event (type stage message tool now : String) : Event :=
  ⟨type, stage, message, tool, now⟩

/-- The optional event callback.  It is modelled as a pure observer that may
raise (`Except.error`); the executor never reads anything back from it. -/
abbrev EventCallback := Option (Event → Except PyExc Unit)

/-- `ToolExecutor._emit`: does nothing for `None`, and swallows (logging
only) any exception the callback raises — the unit result is the same on
every path, which is exactly the containment the code implements. -/
def _emit (callback : EventCallback) (event : Event) : Unit :=
  match callback with
  | none => ()
  | some f =>
    match f event with
    | .ok _ => ()
    | .error _ => ()

/-- `ToolExecutor.execute`.  The returned list is the sequence of events
handed to `_emit`, in firing order.  The function is total: every failure
becomes a `ToolResult`, as the code promises.  `toolName` is kept as the raw
value the caller supplied (the agent forwards the decision's `tool` field
verbatim). -/
def ToolExecutor.execute (reg : Registry) (toolName : Json) (kwargs : Dict)
    (event_callback : EventCallback) (now : String) : ToolResult × List Event :=
  let tname := pyStr toolName
  let ev1 := _make_event "info" "tool_lookup_started"
    ("Looking up tool \x27" ++ tname ++ "\x27 in the registry.") tname now
  let _ := _emit event_callback ev1
  match ToolRegistry.get_or_none reg toolName with
  | none =>
    let msg := "Tool \x27" ++ tname ++ "\x27 is not registered. Available: " ++
      pyListRepr (ToolRegistry.list_names reg)
    let ev2 := _make_event "error" "tool_lookup_failed" msg tname now
    let _ := _emit event_callback ev2
    ({ success := false, error := some msg }, [ev1, ev2])
  | some tool =>
    let ev2 := _make_event "status" "tool_lookup_completed"
      ("Tool \x27" ++ tname ++ "\x27 found successfully.") tname now
    let _ := _emit event_callback ev2
    let ev3 := _make_event "info" "validation_started"
      ("Validating inputs for tool \x27" ++ tname ++ "\x27.") tname now
    let _ := _emit event_callback ev3
    let missing := tool.validate_inputs kwargs
    if missing.isEmpty then
      let ev4 := _make_event "status" "execution_started"
        ("Executing tool \x27" ++ tname ++ "\x27.") tname now
      let _ := _emit event_callback ev4
      match tool.execute kwargs with
      | .error exc =>
        let tb := format_exc exc
        let msg := "Unexpected error in tool \x27" ++ tname ++ "\x27: " ++ exc.msg
        let ev5 := _make_event "error" "execution_failed" msg tname now
        let _ := _emit event_callback ev5
        ({ success := false, error := some msg,
           metadata := [("traceback", .str tb)] }, [ev1, ev2, ev3, ev4, ev5])
      | .ok result =>
        let ev5 := _make_event (if result.success then "status" else "error")
          "execution_completed"
          (if result.success then
            "Tool \x27" ++ tname ++ "\x27 completed successfully. Output: " ++
              pyStr result.output
           else
            "Tool \x27" ++ tname ++ "\x27 returned a failure: " ++
              pyOptStr result.error)
          tname now
        let _ := _emit event_callback ev5
        (result, [ev1, ev2, ev3, ev4, ev5])
    else
      let msg := "Missing required input(s) for \x27" ++ tname ++ "\x27: " ++
        String.intercalate ", " missing
      let ev4 := _make_event "error" "validation_failed" msg tname now
      let _ := _emit event_callback ev4
      ({ success := false, error := some msg }, [ev1, ev2, ev3, ev4])

/-! ### Agent (agent/agent.py)

Prompt construction feeds the backend and influences nothing the claims
talk about; the backend round-trip (`self._generate`) is a black box and is
modelled as its outcome: either the raw response text or a raised
exception. -/

/-- `type(x).__name__` for a JSON-derived value. -/
def pyTypeName : Json → String
  | .null => "NoneType"
  | .bool _ => "bool"
  | .num _ => "int"
  | .str _ => "str"
  | .arr _ => "list"
  | .obj _ => "dict"

/-- The distinguished tool-null message from Agent.run. -/
def nullToolMsg : String :=
  "Model responded with tool=null — no suitable tool found for this instruction."

/-- The call site `self._executor.execute(tool_name, **arguments)`.
CPython keyword binding: a key equal to a parameter that is already bound
(`self`, `tool_name`) raises `TypeError` before the body runs; a key equal
to `event_callback` binds that keyword-only parameter (a non-callable,
non-`None` value later raises inside the callback and is swallowed by
`_emit`); everything else lands in `**kwargs`.  An unhashable `tool` value
(dict or list) raises `TypeError` from `dict.get` inside `execute`; it is
modelled here at the boundary because `execute` is total on hashable keys. -/
def Agent.dispatch (reg : Registry) (now : String) (tool_name : Json)
    (arguments : Dict) : Except PyExc ToolResult :=
  match arguments.find? (fun p => p.1 == "self" || p.1 == "tool_name") with
  | some p =>
    .error ⟨"execute() got multiple values for argument \x27" ++ p.1 ++ "\x27"⟩
  | none =>
    let cb : EventCallback :=
      match assocGet arguments "event_callback" with
      | none => none
      | some Json.null => none
      | some _ => some (fun _ => .error ⟨"object is not callable"⟩)
    let kwargs := arguments.filter (fun p => !(p.1 == "event_callback"))
    match tool_name with
    | .obj _ => .error ⟨"unhashable type: \x27dict\x27"⟩
    | .arr _ => .error ⟨"unhashable type: \x27list\x27"⟩
    | _ => .ok (ToolExecutor.execute reg tool_name kwargs cb now).1

/-- `Agent.run`.  `backend` is the outcome of the `_generate` round trip.
The parse-error text inside the invalid-JSON message is the model parser's
wording; no claim inspects it beyond the fixed prefix. -/
def Agent.run (reg : Registry) (backend : Except PyExc String) (now : String)
    (instruction : String) : Except PyExc ToolResult :=
  if (pyStrip instruction.data).isEmpty then
    .ok { success := false, error := some "Instruction must not be empty." }
  else
    match backend with
    | .error exc =>
      .ok { success := false, error := some ("Gemini API call failed: " ++ exc.msg) }
    | .ok raw_text =>
      let json_str := extract_json raw_text
      match jsonLoads json_str with
      | .error e =>
        .ok { success := false,
              error := some ("Model returned invalid JSON: " ++ e ++
                "\nRaw response was:\n" ++ raw_text),
              metadata := [("raw", .str raw_text)] }
      | .ok decision =>
        match decision with
        | .obj kvs =>
          let tool_name : Json :=
            match assocGet kvs "tool" with
            | none => .null
            | some v => v
          let arguments : Json :=
            match assocGet kvs "arguments" with
            | none => .obj []
            | some v => v
          match tool_name with
          | .null =>
            .ok { success := false, error := some nullToolMsg,
                  metadata := [("raw", .str raw_text)] }
          | _ =>
            match arguments with
            | .obj args => Agent.dispatch reg now tool_name args
            | other =>
              .ok { success := false,
                    error := some ("\x27arguments\x27 must be a JSON object, got: " ++
                      pyTypeName other),
                    metadata := [("raw", .str raw_text)] }
        | other =>
          .ok { success := false,
                error := some ("Expected a JSON object, got: " ++ pyTypeName other),
                metadata := [("raw", .str raw_text)] }

/-! ### Outcome helpers and demonstration tools -/

/-- Whether an `Except` outcome is a raised exception. -/
def isExc {α : Type} : Except PyExc α → Bool
  | .error _ => true
  | .ok _ => false

/-- A stand-in for a well-behaved registered tool (shape of the repository's
`file_creation` tool; its side-effecting body is irrelevant to the claims). -/
def okTool : BaseTool :=
  { name := "file_creation", description := "Creates a new text file.",
    input_schema := .obj [("type", .str "object"),
      ("required", .arr [.str "filename", .str "content"]),
      ("properties", .obj [("filename", .obj []), ("content", .obj []),
                           ("overwrite", .obj [])])],
    execute := fun _ => .ok { success := true, output := .str "/tmp/out.txt" } }

/-- A tool whose `execute` raises. -/
def boomTool : BaseTool :=
  { name := "boom", description := "Always raises.", input_schema := .obj [],
    execute := fun _ => .error ⟨"kaboom"⟩ }

/-- A tool whose schema lists a required key that is absent from
`properties`. -/
def ghostTool : BaseTool :=
  { name := "ghost", description := "Phantom required key.",
    input_schema := .obj [("properties", .obj []),
                          ("required", .arr [.str "x"])],
    execute := fun _ => .ok { success := true } }

def toolA : BaseTool :=
  { name := "a", description := "tool a", input_schema := .obj [],
    execute := fun _ => .ok { success := true } }

def toolB : BaseTool :=
  { name := "b", description := "tool b", input_schema := .obj [],
    execute := fun _ => .ok { success := true } }

/-- A second instance registered under the name `a`. -/
def toolA2 : BaseTool :=
  { name := "a", description := "replacement for a", input_schema := .obj [],
    execute := fun _ => .ok { success := true } }

def regDemo : Registry := [("file_creation", okTool), ("boom", boomTool)]

/-- Registry reached by registering `toolB` and then `toolA`. -/
def regBA : Registry :=
  (ToolRegistry.register (ToolRegistry.register [] toolB).2 toolA).2

/-! ### Association-list lemmas -/

theorem assocGet_replace {α : Type} (m : List (String × α)) (k : String) (v : α) :
    assocGet (m.map (fun p => if p.1 = k then (k, v) else p)) k =
      (assocGet m k).map (fun _ => v) := by
  induction m with
  | nil => rfl
  | cons p rest ih =>
    obtain ⟨k0, v0⟩ := p
    simp only [List.map_cons]
    by_cases h : k0 = k
    · subst h
      have hc : ((k0, v0) : String × α).1 = k0 := rfl
      rw [if_pos hc]
      simp [assocGet]
    · have hc : ¬(((k0, v0) : String × α).1 = k) := h
      rw [if_neg hc]
      simp [assocGet, h, ih]

theorem assocGet_append_of_none {α : Type} (m1 m2 : List (String × α)) (k : String)
    (h : assocGet m1 k = none) : assocGet (m1 ++ m2) k = assocGet m2 k := by
  induction m1 with
  | nil => rfl
  | cons p rest ih =>
    obtain ⟨k0, v0⟩ := p
    by_cases hk : k0 = k
    · simp [assocGet, hk] at h
    · simp [assocGet, hk] at h ⊢
      exact ih h

theorem assocGet_dictInsert_self {α : Type} (m : List (String × α)) (k : String)
    (v : α) : assocGet (dictInsert m k v) k = some v := by
  unfold dictInsert
  by_cases h : (assocGet m k).isSome
  · obtain ⟨w, hw⟩ := Option.isSome_iff_exists.mp h
    simp [assocGet_replace, hw]
  · have hn : assocGet m k = none := Option.not_isSome_iff_eq_none.mp h
    simp [h, assocGet_append_of_none m [(k, v)] k hn, assocGet]

theorem format_exc_ne_empty (e : PyExc) : format_exc e ≠ "" := by
  intro h
  have hd := congrArg String.data h
  rw [format_exc, String.data_append, String.data_append] at hd
  have := List.append_eq_nil.mp hd
  have := List.append_eq_nil.mp this.1
  simp at this

/-! ### Claim theorems -/

/-- Claim C9: the event callback cannot affect the outcome of
`ToolExecutor.execute` — the result (and the emitted event sequence) is
identical for every callback, including an absent one and one that raises at
any stage, and a callback exception never propagates (the function is total,
with containment inside `_emit`). -/
theorem c9_callback_cannot_affect_outcome (reg : Registry) (toolName : Json)
    (kwargs : Dict) (now : String) (cb1 cb2 : EventCallback) :
    ToolExecutor.execute reg toolName kwargs cb1 now =
      ToolExecutor.execute reg toolName kwargs cb2 now := rfl

/-- Claim C10: failed registry mutations leave the registry unchanged — when
`register` fails (duplicate or empty name), when `force_register` fails
(empty name), or when `unregister` fails (absent name), the post-state equals
the pre-state, so every name resolves exactly as before. -/
theorem c10_failed_mutations_leave_registry_unchanged (reg : Registry)
    (t : BaseTool) (name : String) :
    (isExc (ToolRegistry.register reg t).1 = true →
      (ToolRegistry.register reg t).2 = reg ∧
      ∀ n, assocGet (ToolRegistry.register reg t).2 n = assocGet reg n)
    ∧ (isExc (ToolRegistry.force_register reg t).1 = true →
      (ToolRegistry.force_register reg t).2 = reg ∧
      ∀ n, assocGet (ToolRegistry.force_register reg t).2 n = assocGet reg n)
    ∧ (isExc (ToolRegistry.unregister reg name).1 = true →
      (ToolRegistry.unregister reg name).2 = reg ∧
      ∀ n, assocGet (ToolRegistry.unregister reg name).2 n = assocGet reg n) := by
  refine ⟨?_, ?_, ?_⟩ <;> intro h
  · unfold ToolRegistry.register at h ⊢
    split_ifs at h ⊢ <;> simp_all [isExc]
  · unfold ToolRegistry.force_register at h ⊢
    split_ifs at h ⊢ <;> simp_all [isExc]
  · unfold ToolRegistry.unregister at h ⊢
    split_ifs at h ⊢ <;> simp_all [isExc]

/-- Witness for C10 at concrete failing calls: a duplicate `register`, an
empty-name `force_register`, and an `unregister` of an absent name all leave
the one-entry registry `[("a", toolA)]` intact. -/
theorem c10_witness :
    (ToolRegistry.register [("a", toolA)] toolA2).2 = [("a", toolA)]
    ∧ (ToolRegistry.force_register [("a", toolA)]
        { toolA with name := "" }).2 = [("a", toolA)]
    ∧ (ToolRegistry.unregister [("a", toolA)] "zz").2 = [("a", toolA)] := by
  refine ⟨?_, ?_, ?_⟩
  · exact ((c10_failed_mutations_leave_registry_unchanged [("a", toolA)] toolA2 "zz").1 rfl).1
  · exact ((c10_failed_mutations_leave_registry_unchanged [("a", toolA)]
      { toolA with name := "" } "zz").2.1 rfl).1
  · exact ((c10_failed_mutations_leave_registry_unchanged [("a", toolA)] toolA2 "zz").2.2 rfl).1

theorem dictHasKey_register_post (reg : Registry) (t : BaseTool)
    (h : t.name ≠ "") :
    dictHasKey (ToolRegistry.register reg t).2 t.name = true := by
  unfold ToolRegistry.register
  split_ifs with h1 h2
  · exact absurd h1 h
  · simpa using h2
  · simp [dictHasKey, assocGet_dictInsert_self]

/-- Claim C8: `register` fails on an empty name and on the second of two
calls with the same name; `force_register` performs the same emptiness check
but never fails on a duplicate, and after it `get` returns the replacing
instance. -/
theorem c8_register_duplicate_and_force_register (t u : BaseTool)
    (reg : Registry) (hne : t.name ≠ "") (hun : u.name = t.name) :
    isExc (ToolRegistry.register (ToolRegistry.register reg t).2 u).1 = true
    ∧ (∀ t0 : BaseTool, t0.name = "" →
        isExc (ToolRegistry.register reg t0).1 = true)
    ∧ (∀ t0 : BaseTool, t0.name = "" →
        isExc (ToolRegistry.force_register reg t0).1 = true)
    ∧ isExc (ToolRegistry.force_register
        (ToolRegistry.register reg t).2 u).1 = false
    ∧ ToolRegistry.get
        (ToolRegistry.force_register (ToolRegistry.register reg t).2 u).2
        u.name = .ok u := by
  have hu : u.name ≠ "" := by rw [hun]; exact hne
  have hk : dictHasKey (ToolRegistry.register reg t).2 t.name = true :=
    dictHasKey_register_post reg t hne
  refine ⟨?_, ?_, ?_, ?_, ?_⟩
  · generalize hpost : (ToolRegistry.register reg t).2 = post at hk
    unfold ToolRegistry.register
    rw [hun]
    simp [hne, hk, isExc]
  · intro t0 h0
    unfold ToolRegistry.register
    simp [h0, isExc]
  · intro t0 h0
    unfold ToolRegistry.force_register
    simp [h0, isExc]
  · unfold ToolRegistry.force_register
    simp [hu, isExc]
  · unfold ToolRegistry.force_register
    simp [hu, ToolRegistry.get, assocGet_dictInsert_self]

/-- Witness for C8 on the empty registry: registering `toolA` twice under the
name `a` fails the second time, empty names fail both ways, and
`force_register` replaces so that `get` returns `toolA2`. -/
theorem c8_witness :
    isExc (ToolRegistry.register (ToolRegistry.register [] toolA).2 toolA2).1 = true
    ∧ isExc (ToolRegistry.register [] { toolA with name := "" }).1 = true
    ∧ isExc (ToolRegistry.force_register [] { toolA with name := "" }).1 = true
    ∧ isExc (ToolRegistry.force_register
        (ToolRegistry.register [] toolA).2 toolA2).1 = false
    ∧ ToolRegistry.get
        (ToolRegistry.force_register (ToolRegistry.register [] toolA).2 toolA2).2
        toolA2.name = .ok toolA2 := by
  have h := c8_register_duplicate_and_force_register toolA toolA2 []
    (by decide) rfl
  exact ⟨h.1, h.2.1 _ rfl, h.2.2.1 _ rfl, h.2.2.2.1, h.2.2.2.2⟩

/-- Name of a tool descriptor as produced by `get_metadata`. -/
def metaNameStr (j : Json) : String :=
  match j with
  | .obj fs =>
    match assocGet fs "name" with
    | some (.str s) => s
    | _ => ""
  | _ => ""

/-- Counterexample to claim C7: in the registry reached by registering `b`
then `a`, `list_names` is lexicographic (`["a", "b"]`) but `list_metadata`
keeps insertion order (descriptor names `["b", "a"]`) — not the same
ordering basis. -/
theorem c7_counterexample :
    ToolRegistry.list_names regBA = ["a", "b"]
    ∧ (ToolRegistry.list_metadata regBA).map metaNameStr = ["b", "a"]
    ∧ (ToolRegistry.list_metadata regBA).map metaNameStr ≠
        ToolRegistry.list_names regBA := by
  have h1 : ToolRegistry.list_names regBA = ["a", "b"] := by
    show List.insertionSort (· ≤ ·) ["b", "a"] = ["a", "b"]
    simp [List.insertionSort, List.orderedInsert]
    decide
  have h2 : (ToolRegistry.list_metadata regBA).map metaNameStr = ["b", "a"] := rfl
  refine ⟨h1, h2, ?_⟩
  rw [h1, h2]
  decide

/-- Claim C7 as amended: `list_names` is a sorted permutation of the
registered names, and `list_metadata` has exactly one descriptor per
registered tool, in insertion order (the `i`-th descriptor belongs to the
`i`-th registered entry), which need not coincide with the lexicographic
order of `list_names`. -/
theorem c7_amended_listing_order (reg : Registry) (i : Nat)
    (e : String × BaseTool) (h : reg[i]? = some e) :
    List.Sorted (· ≤ ·) (ToolRegistry.list_names reg)
    ∧ (ToolRegistry.list_names reg).Perm (reg.map Prod.fst)
    ∧ (ToolRegistry.list_metadata reg)[i]? = some e.2.get_metadata := by
  refine ⟨List.sorted_insertionSort _ _, List.perm_insertionSort _ _, ?_⟩
  simp [ToolRegistry.list_metadata, List.getElem?_map, h]

/-- Witness for the amended C7 at `regBA` and index 0. -/
theorem c7_amended_witness :
    List.Sorted (· ≤ ·) (ToolRegistry.list_names regBA)
    ∧ (ToolRegistry.list_names regBA).Perm (regBA.map Prod.fst)
    ∧ (ToolRegistry.list_metadata regBA)[0]? =
        some (("b", toolB) : String × BaseTool).2.get_metadata :=
  c7_amended_listing_order regBA 0 ("b", toolB) rfl

/-! Concrete response texts for the JSON-recovery claim. -/

def sPlain : String := "prefix text \x7b\"tool\":\"x\",\"arguments\":\x7b\x7d\x7d suffix"

def sFenced : String := "```json\n\x7b\"tool\":\"x\",\"arguments\":\x7b\x7d\x7d\n```"

def sBare : String := "\x7b\"tool\":\"x\",\"arguments\":\x7b\x7d\x7d"

def sMixed : String :=
  "\x7b\"decoy\":0\x7d ```\x7b\"tool\":\"x\",\"arguments\":\x7b\x7d\x7d```"

/-- What the bare-brace tier alone would return on `sMixed`. -/
def sMixedBraceSpan : String :=
  "\x7b\"decoy\":0\x7d ```\x7b\"tool\":\"x\",\"arguments\":\x7b\x7d\x7d"

/-- Claim C5: JSON recovery is insensitive to wrapping — the prose-wrapped,
fence-wrapped, and bare forms of the object all extract to the same text and
parse to the identical decision; and on a text containing both an earlier
brace span and a fenced block, the fenced tier wins over the bare-brace
scan. -/
theorem c5_json_recovery_insensitive_to_wrapping :
    extract_json sPlain = sBare
    ∧ extract_json sFenced = sBare
    ∧ extract_json sBare = sBare
    ∧ jsonLoads (extract_json sPlain) =
        .ok (.obj [("tool", .str "x"), ("arguments", .obj [])])
    ∧ jsonLoads (extract_json sFenced) =
        .ok (.obj [("tool", .str "x"), ("arguments", .obj [])])
    ∧ jsonLoads (extract_json sBare) =
        .ok (.obj [("tool", .str "x"), ("arguments", .obj [])])
    ∧ extractFenced sMixed.data = some sBare.data
    ∧ extractBrace sMixed.data = some sMixedBraceSpan.data
    ∧ extract_json sMixed = sBare
    ∧ sBare ≠ sMixedBraceSpan := by
  refine ⟨rfl, rfl, rfl, rfl, rfl, rfl, rfl, rfl, rfl, by decide⟩

def rawC3 : String :=
  "\x7b\"tool\": \"boom\", \"arguments\": \x7b\"tool_name\": \"x\"\x7d\x7d"

/-- Claim C3 is violated by the code: when the parsed decision's arguments
contain the key `tool_name`, the call
`self._executor.execute(tool_name, **arguments)` raises
`TypeError: execute() got multiple values for argument "tool_name"`,
which propagates out of `Agent.run` — contradicting the claim (and the
function's own docstring) that `run` always returns a `ToolResult`. -/
theorem c3_run_raises_on_colliding_argument_key :
    Agent.run regDemo (.ok rawC3) "ts" "create a file" =
      .error ⟨"execute() got multiple values for argument \x27tool_name\x27"⟩ := by
  rfl

/-- Claim C1: a registered tool whose `execute` raises an arbitrary exception
never makes `ToolExecutor.execute` raise (the embedding is total); the
exception is converted to `ToolResult{success:false}` with the exact
`Unexpected error in tool` message, a present and non-empty
`metadata.traceback`, and an event stream ending in an `execution_failed`
event of type `error` — `execution_completed` never fires. -/
theorem c1_tool_exception_contained (reg : Registry) (name : String)
    (t : BaseTool) (kwargs : Dict) (exc : PyExc) (cb : EventCallback)
    (now : String)
    (_hwf : wfSchema t.input_schema = true)
    (hlook : ToolRegistry.get_or_none reg (.str name) = some t)
    (hval : t.validate_inputs kwargs = [])
    (hexec : t.execute kwargs = .error exc) :
    (ToolExecutor.execute reg (.str name) kwargs cb now).1 =
      { success := false,
        error := some ("Unexpected error in tool \x27" ++ name ++ "\x27: " ++ exc.msg),
        metadata := [("traceback", Json.str (format_exc exc))] }
    ∧ format_exc exc ≠ ""
    ∧ (ToolExecutor.execute reg (.str name) kwargs cb now).2.map Event.stage =
        ["tool_lookup_started", "tool_lookup_completed", "validation_started",
         "execution_started", "execution_failed"]
    ∧ ((ToolExecutor.execute reg (.str name) kwargs cb now).2.getLast?).map
        Event.type = some "error"
    ∧ "execution_completed" ∉
        (ToolExecutor.execute reg (.str name) kwargs cb now).2.map Event.stage := by
  refine ⟨?_, format_exc_ne_empty exc, ?_, ?_, ?_⟩ <;>
    simp [ToolExecutor.execute, hlook, hval, hexec, _make_event, pyStr]

/-- Witness for C1: executing the raising tool `boom` from `regDemo`. -/
theorem c1_witness :
    (ToolExecutor.execute regDemo (.str "boom") [] none "ts").1 =
      { success := false,
        error := some "Unexpected error in tool \x27boom\x27: kaboom",
        metadata := [("traceback",
          Json.str (format_exc (PyExc.mk "kaboom")))] }
    ∧ format_exc (PyExc.mk "kaboom") ≠ ""
    ∧ (ToolExecutor.execute regDemo (.str "boom") [] none "ts").2.map Event.stage =
        ["tool_lookup_started", "tool_lookup_completed", "validation_started",
         "execution_started", "execution_failed"]
    ∧ ((ToolExecutor.execute regDemo (.str "boom") [] none "ts").2.getLast?).map
        Event.type = some "error"
    ∧ "execution_completed" ∉
        (ToolExecutor.execute regDemo (.str "boom") [] none "ts").2.map Event.stage :=
  c1_tool_exception_contained regDemo "boom" boomTool [] ⟨"kaboom"⟩ none "ts"
    rfl rfl rfl rfl

/-- Claim C2: when the tool is found, no required input is missing and the
tool returns a successful result normally, the emitted stage sequence is
exactly the five pipeline stages in order — nothing repeated, skipped or
reordered — and the tool's `ToolResult` is returned unchanged. -/
theorem c2_success_path_event_order (reg : Registry) (name : String)
    (t : BaseTool) (kwargs : Dict) (res : ToolResult) (cb : EventCallback)
    (now : String)
    (_hwf : wfSchema t.input_schema = true)
    (hlook : ToolRegistry.get_or_none reg (.str name) = some t)
    (hval : t.validate_inputs kwargs = [])
    (hexec : t.execute kwargs = .ok res)
    (hsucc : res.success = true) :
    (ToolExecutor.execute reg (.str name) kwargs cb now).1 = res
    ∧ (ToolExecutor.execute reg (.str name) kwargs cb now).2.map Event.stage =
        ["tool_lookup_started", "tool_lookup_completed", "validation_started",
         "execution_started", "execution_completed"] := by
  refine ⟨?_, ?_⟩ <;>
    simp [ToolExecutor.execute, hlook, hval, hexec, hsucc, _make_event, pyStr]

/-- Witness for C2: a successful `file_creation` run over `regDemo`. -/
theorem c2_witness :
    (ToolExecutor.execute regDemo (.str "file_creation")
      [("filename", .str "a"), ("content", .str "b")] none "ts").1 =
      { success := true, output := .str "/tmp/out.txt" }
    ∧ (ToolExecutor.execute regDemo (.str "file_creation")
        [("filename", .str "a"), ("content", .str "b")] none "ts").2.map
        Event.stage =
        ["tool_lookup_started", "tool_lookup_completed", "validation_started",
         "execution_started", "execution_completed"] :=
  c2_success_path_event_order regDemo "file_creation" okTool
    [("filename", .str "a"), ("content", .str "b")]
    { success := true, output := .str "/tmp/out.txt" } none "ts"
    rfl rfl rfl rfl rfl

/-- Counterexample to claim C4: for `ghostTool`, whose schema lists `"x"` in
`input_schema.required` but not in `properties`, the key `"x"` is absent from
the (empty) arguments yet is NOT reported missing — `validate_inputs` only
reports keys present in both `properties` and `required` — and the executor
proceeds all the way to `execution_started`/`execution_completed` instead of
failing validation. -/
theorem c4_counterexample :
    (schemaRequired ghostTool.input_schema).contains "x" = true
    ∧ dictHasKey ([] : Dict) "x" = false
    ∧ ghostTool.validate_inputs [] = []
    ∧ (ToolExecutor.execute [("ghost", ghostTool)] (.str "ghost") [] none
        "ts").2.map Event.stage =
        ["tool_lookup_started", "tool_lookup_completed", "validation_started",
         "execution_started", "execution_completed"] := by
  exact ⟨rfl, rfl, rfl, rfl⟩

/-- Claim C4 as amended: the set of missing keys is computed as the keys
that appear in both `input_schema.properties` and `input_schema.required`
and are absent from the arguments; when that set is non-empty, `execute`
fires `validation_failed` carrying the message that names the missing keys,
returns `ToolResult{success:false}` with the exact
`Missing required input(s)` message, and never fires `execution_started`. -/
theorem c4_missing_inputs_validation (reg : Registry) (name : String)
    (t : BaseTool) (kwargs : Dict) (cb : EventCallback) (now : String)
    (_hwf : wfSchema t.input_schema = true)
    (hlook : ToolRegistry.get_or_none reg (.str name) = some t)
    (hmiss : t.validate_inputs kwargs ≠ []) :
    (ToolExecutor.execute reg (.str name) kwargs cb now).1 =
      { success := false,
        error := some ("Missing required input(s) for \x27" ++ name ++ "\x27: " ++
          String.intercalate ", " (t.validate_inputs kwargs)) }
    ∧ (ToolExecutor.execute reg (.str name) kwargs cb now).2.map Event.stage =
        ["tool_lookup_started", "tool_lookup_completed", "validation_started",
         "validation_failed"]
    ∧ "execution_started" ∉
        (ToolExecutor.execute reg (.str name) kwargs cb now).2.map Event.stage
    ∧ ((ToolExecutor.execute reg (.str name) kwargs cb now).2.getLast?).map
        Event.message =
        some ("Missing required input(s) for \x27" ++ name ++ "\x27: " ++
          String.intercalate ", " (t.validate_inputs kwargs))
    ∧ (∀ f, f ∈ t.validate_inputs kwargs ↔
        f ∈ (schemaProperties t.input_schema).map Prod.fst
        ∧ f ∈ schemaRequired t.input_schema
        ∧ dictHasKey kwargs f = false) := by
  have hne : (t.validate_inputs kwargs).isEmpty = false := by
    cases h : t.validate_inputs kwargs with
    | nil => exact absurd h hmiss
    | cons a l => rfl
  refine ⟨?_, ?_, ?_, ?_, ?_⟩
  · simp [ToolExecutor.execute, hlook, hne, _make_event, pyStr]
  · simp [ToolExecutor.execute, hlook, hne, _make_event, pyStr]
  · simp [ToolExecutor.execute, hlook, hne, _make_event, pyStr]
  · simp [ToolExecutor.execute, hlook, hne, _make_event, pyStr]
  · intro f
    unfold BaseTool.validate_inputs
    simp only [List.mem_filter, List.mem_filterMap, List.mem_map,
      Bool.not_eq_true']
    constructor
    · rintro ⟨⟨p, hp, hif⟩, hnk⟩
      by_cases hc : (schemaRequired t.input_schema).contains p.1
      · rw [if_pos hc] at hif
        obtain rfl : p.1 = f := Option.some.inj hif
        exact ⟨⟨p, hp, rfl⟩, by simpa using hc, hnk⟩
      · rw [if_neg hc] at hif
        exact absurd hif (Option.noConfusion)
    · rintro ⟨⟨p, hp, hpf⟩, hreq, hnk⟩
      refine ⟨⟨p, hp, ?_⟩, hnk⟩
      have hc : (schemaRequired t.input_schema).contains p.1 = true := by
        simpa [hpf] using hreq
      rw [if_pos hc]
      exact congrArg some hpf

/-- Witness for the amended C4: `file_creation` with `content` omitted. -/
theorem c4_witness :
    (ToolExecutor.execute regDemo (.str "file_creation")
      [("filename", .str "a.txt")] none "ts").1 =
      { success := false,
        error := some ("Missing required input(s) for \x27file_creation\x27: " ++
          String.intercalate ", "
            (okTool.validate_inputs [("filename", .str "a.txt")])) }
    ∧ (ToolExecutor.execute regDemo (.str "file_creation")
        [("filename", .str "a.txt")] none "ts").2.map Event.stage =
        ["tool_lookup_started", "tool_lookup_completed", "validation_started",
         "validation_failed"]
    ∧ "execution_started" ∉
        (ToolExecutor.execute regDemo (.str "file_creation")
          [("filename", .str "a.txt")] none "ts").2.map Event.stage
    ∧ ((ToolExecutor.execute regDemo (.str "file_creation")
        [("filename", .str "a.txt")] none "ts").2.getLast?).map Event.message =
        some ("Missing required input(s) for \x27file_creation\x27: " ++
          String.intercalate ", "
            (okTool.validate_inputs [("filename", .str "a.txt")]))
    ∧ (∀ f, f ∈ okTool.validate_inputs [("filename", .str "a.txt")] ↔
        f ∈ (schemaProperties okTool.input_schema).map Prod.fst
        ∧ f ∈ schemaRequired okTool.input_schema
        ∧ dictHasKey [("filename", Json.str "a.txt")] f = false) :=
  c4_missing_inputs_validation regDemo "file_creation" okTool
    [("filename", .str "a.txt")] none "ts" rfl rfl (by decide)

theorem nullToolMsg_ne_invalid_json (e r : String) :
    nullToolMsg ≠
      "Model returned invalid JSON: " ++ e ++ "\nRaw response was:\n" ++ r := by
  intro h
  have hd := congrArg String.data h
  rw [String.data_append, String.data_append, String.data_append,
    List.append_assoc, List.append_assoc] at hd
  have ht := congrArg (List.take 29) hd
  rw [List.take_left' (by decide)] at ht
  exact absurd ht (by decide)

theorem nullToolMsg_ne_unknown_tool (tname : String) (names : List String) :
    nullToolMsg ≠
      "Tool \x27" ++ tname ++ "\x27 is not registered. Available: " ++
        pyListRepr names := by
  intro h
  have hd := congrArg String.data h
  rw [String.data_append, String.data_append, String.data_append,
    List.append_assoc, List.append_assoc] at hd
  have ht := congrArg (List.take 6) hd
  rw [List.take_left' (by decide)] at ht
  exact absurd ht (by decide)

/-- Claim C6: a syntactically valid decision whose `tool` key is null makes
`Agent.run` return the distinguished `tool=null` failure with the raw text in
metadata, and that error text differs from every possible invalid-JSON error
text and every possible unknown-tool error text, keeping the three failure
modes distinguishable by message content. -/
theorem c6_tool_null_distinguished (reg : Registry)
    (raw instruction now : String) (kvs : List (String × Json))
    (hinstr : (pyStrip instruction.data).isEmpty = false)
    (hparse : jsonLoads (extract_json raw) = .ok (.obj kvs))
    (htool : assocGet kvs "tool" = some Json.null) :
    Agent.run reg (.ok raw) now instruction =
      .ok { success := false, error := some nullToolMsg,
            metadata := [("raw", .str raw)] }
    ∧ (∀ e r : String, nullToolMsg ≠
        "Model returned invalid JSON: " ++ e ++ "\nRaw response was:\n" ++ r)
    ∧ (∀ (tname : String) (names : List String), nullToolMsg ≠
        "Tool \x27" ++ tname ++ "\x27 is not registered. Available: " ++
          pyListRepr names) := by
  refine ⟨?_, nullToolMsg_ne_invalid_json, nullToolMsg_ne_unknown_tool⟩
  simp [Agent.run, hinstr, hparse, htool]

def rawC6 : String := "\x7b\"tool\": null, \"arguments\": \x7b\x7d\x7d"

/-- Witness for C6 on the literal `tool: null` response. -/
theorem c6_witness :
    Agent.run [] (.ok rawC6) "ts" "hello" =
      .ok { success := false, error := some nullToolMsg,
            metadata := [("raw", .str rawC6)] }
    ∧ (∀ e r : String, nullToolMsg ≠
        "Model returned invalid JSON: " ++ e ++ "\nRaw response was:\n" ++ r)
    ∧ (∀ (tname : String) (names : List String), nullToolMsg ≠
        "Tool \x27" ++ tname ++ "\x27 is not registered. Available: " ++
          pyListRepr names) :=
  c6_tool_null_distinguished [] rawC6 "hello" "ts"
    [("tool", Json.null), ("arguments", Json.obj [])] rfl rfl rfl

end GladdenAction
